import Mathlib

/-!
Shallow embedding of the VVS pipeline backend (`src/server.py`): the PDF
generator (`PDFGenerator.generate`), the email sender (`EmailSender.send`)
and the submit handler (`PipelineHandler._handle_submit`).

Conventions of the embedding:
* Python strings are Lean `String`s; character-level operations
  (`str.split`, `str.startswith`, `str.replace`) are modelled on `String.data`
  (the list of characters).
* Byte sequences (`bytes`) are `List Nat`.
* The PIL image pipeline (`Image.open` / `thumbnail` / `save`, an external
  library) is a parameter `pil : List Nat → Option (List Nat)`: `none` when
  `Image.open` (or re-encoding) raises, otherwise the re-encoded JPEG bytes.
  Likewise ReportLab's `doc.build`/`buffer.getvalue()` serialization is a
  parameter `render : List Block → List Nat`.
* A Python function that can raise is `Except String _` / `Option _`; a
  caught exception is the `none`/`error` branch.
* JSON scalar values that the code only ever prints (e.g. `kilometers`)
  are carried in their printed form as `String`.
-/

namespace Pipeline

/-! ### Python string primitives used by the source -/

/-- Model of Python `s.split(sep)` for a one-character separator, on the
character list of the string. `''.split(',') == ['']`, and the result is
never empty. -/
def pySplit (sep : Char) : List Char → List (List Char)
  | [] => [[]]
  | c :: cs =>
    let r := pySplit sep cs
    if c = sep then [] :: r
    else (c :: r.headD []) :: r.tail

/-- Model of Python `s.replace('Z', '+00:00')`: every occurrence of `Z`
(the pattern is a single character) is replaced. -/
def pyReplaceZ (s : String) : String :=
  ⟨s.data.flatMap (fun c => if c = 'Z' then "+00:00".data else [c])⟩

/-! ### Base64 decoding (`base64.b64decode`, default `validate=False`) -/

/-- Value of a standard-alphabet base64 character. -/
def b64val (c : Char) : Option Nat :=
  if 'A' ≤ c ∧ c ≤ 'Z' then some (c.toNat - 65)
  else if 'a' ≤ c ∧ c ≤ 'z' then some (c.toNat - 97 + 26)
  else if '0' ≤ c ∧ c ≤ '9' then some (c.toNat - 48 + 52)
  else if c = '+' then some 62
  else if c = '/' then some 63
  else none

/-- Turn a list of 6-bit values into bytes: groups of four values give three
bytes, a trailing group of two gives one byte, of three gives two bytes. -/
def b64groups : List Nat → List Nat
  | a :: b :: c :: d :: rest =>
    let n := ((a * 64 + b) * 64 + c) * 64 + d
    (n / 65536) :: (n / 256 % 256) :: (n % 256) :: b64groups rest
  | [a, b] => [(a * 64 + b) / 16]
  | [a, b, c] => let n := (a * 64 + b) * 64 + c; [n / 1024, n / 4 % 256]
  | _ => []

/-- Model of Python `base64.b64decode(s)` with the default `validate=False`:
characters outside the alphabet and `'='` are discarded, the remaining
length must be a multiple of four (otherwise `binascii.Error`, i.e. `none`),
data characters stop at the first padding `'='`. -/
def pyB64Decode (l : List Char) : Option (List Nat) :=
  let valid := l.filter (fun c => (b64val c).isSome || c = '=')
  if valid.length % 4 ≠ 0 then none
  else
    let data := valid.takeWhile (fun c => c ≠ '=')
    if data.length % 4 = 1 then none
    else some (b64groups (data.map (fun c => (b64val c).getD 0)))

/-! ### The data-URI strip performed before decoding

Both photo paths run
`if img_data.startswith('data:image'): img_data = img_data.split(',')[1]`
before `base64.b64decode`.  An `IndexError` from `[1]` (no comma present)
is caught by the surrounding `try` — hence the `Option`. -/

/-- Model of the source's data-URI handling: when the payload starts with
`data:image`, take element `[1]` of the comma-split (none when there is no
comma: the `IndexError` path); otherwise the payload is used unchanged. -/
def stripDataUri (s : String) : Option (List Char) :=
  if "data:image".data.isPrefixOf s.data then (pySplit ',' s.data)[1]?
  else some s.data

/-- Characters strictly after the first comma, `none` when no comma. -/
def afterFirstComma : List Char → Option (List Char)
  | [] => none
  | c :: cs => if c = ',' then some cs else afterFirstComma cs

/-- Modelled from the spec: "if the string carries a data-URI scheme prefix,
strip everything up to and including the first comma" — the *entire* suffix
after the first comma is kept (no comma at all is the failure case, matching
the code's `IndexError` path so that only the multi-comma behaviour is
compared). -/
def stripDataUriSpec (s : String) : Option (List Char) :=
  if "data:image".data.isPrefixOf s.data then afterFirstComma s.data
  else some s.data

/-! ### `datetime.fromisoformat` and `strftime('%d.%m.%Y kl. %H:%M')` -/

structure PyDateTime where
  year : Nat
  month : Nat
  day : Nat
  hour : Nat
  minute : Nat
  second : Nat
  deriving DecidableEq, Repr

def digitVal (c : Char) : Option Nat :=
  if c.isDigit then some (c.toNat - 48) else none

def parse2 : List Char → Option (Nat × List Char)
  | a :: b :: rest =>
    match digitVal a, digitVal b with
    | some x, some y => some (x * 10 + y, rest)
    | _, _ => none
  | _ => none

def parse4 : List Char → Option (Nat × List Char)
  | a :: b :: c :: d :: rest =>
    match digitVal a, digitVal b, digitVal c, digitVal d with
    | some w, some x, some y, some z => some (((w * 10 + x) * 10 + y) * 10 + z, rest)
    | _, _, _, _ => none
  | _ => none

def daysInMonth (y m : Nat) : Nat :=
  if m = 2 then (if (y % 4 = 0 ∧ y % 100 ≠ 0) ∨ y % 400 = 0 then 29 else 28)
  else if m = 4 ∨ m = 6 ∨ m = 9 ∨ m = 11 then 30 else 31

/-- Validate a `±HH:MM` UTC offset (or nothing) at the end of the string. -/
def parseOffsetEnd (l : List Char) : Bool :=
  match l with
  | [] => true
  | sign :: rest =>
    if sign = '+' ∨ sign = '-' then
      match parse2 rest with
      | some (h, r1) =>
        match r1 with
        | ':' :: r2 =>
          match parse2 r2 with
          | some (m, r3) => decide (r3 = [] ∧ h < 24 ∧ m < 60)
          | none => false
        | _ => false
      | none => false
    else false

/-- Skip a fractional-seconds part `.fff` / `.ffffff` if present. -/
def skipFraction (l : List Char) : Option (List Char) :=
  match l with
  | '.' :: rest =>
    let ds := rest.takeWhile Char.isDigit
    if ds.length = 3 ∨ ds.length = 6 then some (rest.drop ds.length) else none
  | r => some r

/-- Model of `datetime.fromisoformat`: `YYYY-MM-DD`, optionally followed by a
one-character separator and `HH:MM[:SS[.fff[fff]]]` and an optional `±HH:MM`
offset. Field ranges are validated as the `datetime` constructor does. -/
def fromisoformat (s : String) : Option PyDateTime :=
  match parse4 s.data with
  | none => none
  | some (y, r0) =>
    match r0 with
    | '-' :: r1 =>
      match parse2 r1 with
      | none => none
      | some (mo, r2) =>
        match r2 with
        | '-' :: r3 =>
          match parse2 r3 with
          | none => none
          | some (d, r4) =>
            if 1 ≤ mo ∧ mo ≤ 12 ∧ 1 ≤ d ∧ d ≤ daysInMonth y mo then
              match r4 with
              | [] => some ⟨y, mo, d, 0, 0, 0⟩
              | _sep :: r5 =>
                match parse2 r5 with
                | none => none
                | some (h, r6) =>
                  match r6 with
                  | ':' :: r7 =>
                    match parse2 r7 with
                    | none => none
                    | some (mi, r8) =>
                      if h < 24 ∧ mi < 60 then
                        match r8 with
                        | ':' :: r9 =>
                          match parse2 r9 with
                          | none => none
                          | some (se, r10) =>
                            if se < 60 then
                              match skipFraction r10 with
                              | none => none
                              | some r11 =>
                                if parseOffsetEnd r11 then some ⟨y, mo, d, h, mi, se⟩
                                else none
                            else none
                        | r8' =>
                          if parseOffsetEnd r8' then some ⟨y, mo, d, h, mi, 0⟩
                          else none
                      else none
                  | _ => none
            else none
        | _ => none
    | _ => none

def pad2 (n : Nat) : String := if n < 10 then "0" ++ toString n else toString n

def pad4 (n : Nat) : String :=
  if n < 10 then "000" ++ toString n
  else if n < 100 then "00" ++ toString n
  else if n < 1000 then "0" ++ toString n
  else toString n

/-- `dt.strftime('%d.%m.%Y kl. %H:%M')`. -/
def strftimeReport (dt : PyDateTime) : String :=
  pad2 dt.day ++ "." ++ pad2 dt.month ++ "." ++ pad4 dt.year ++
    " kl. " ++ pad2 dt.hour ++ ":" ++ pad2 dt.minute

/-! ### Data model: the job record as the handler reads it -/

/-- A photo payload as it appears in the `photos` JSON object: a string, a
dict carrying a `'data'` string, or some other value (a dict without
`'data'`, a number, ... — with its Python truthiness). -/
inductive Payload
  | pstr (s : String)
  | pdata (s : String)
  | pother (truthy : Bool)
  deriving DecidableEq, Repr

/-- Python truthiness of the payload value: an empty string is falsy, a dict
that contains `'data'` is non-empty and hence truthy. -/
def Payload.truthy : Payload → Bool
  | .pstr s => s ≠ ""
  | .pdata _ => true
  | .pother t => t

/-- The `photos` JSON object: the four fixed slot keys (each `none` when the
key is absent), plus the remaining `(key, value)` items in encounter order
(only keys starting with `extra_` are ever used by the code). -/
structure PhotoSet where
  before : Option Payload
  during : Option Payload
  detail : Option Payload
  after : Option Payload
  extras : List (String × Payload)
  deriving DecidableEq, Repr

/-- Python truthiness of the `photos` dict: non-empty, i.e. it has a key. -/
def PhotoSet.truthy (ps : PhotoSet) : Bool :=
  ps.before.isSome || ps.during.isSome || ps.detail.isSome || ps.after.isSome ||
    !ps.extras.isEmpty

/-- `photo_keys = ['before', 'during', 'detail', 'after']`, each paired with
its slot value, in the fixed declared order. -/
def PhotoSet.fixedSlots (ps : PhotoSet) : List (String × Option Payload) :=
  [("before", ps.before), ("during", ps.during), ("detail", ps.detail),
   ("after", ps.after)]

/-- `answers` object: boolean-or-unset per checklist item.  (The generator
reads this object — `answers = job_data.get('answers', {})` — but never uses
it.) -/
structure AnswerSet where
  arbeidFullfort : Option Bool
  materialerByttet : Option Bool
  oppfolgingPakrevd : Option Bool
  deriving DecidableEq, Repr

structure Company where
  name : Option String
  orgNr : Option String
  deriving DecidableEq, Repr

/-- The submitted job record, as the fields the code reads.  `none` / `""` /
`[]` model an absent key where the code uses that default. -/
structure JobData where
  id : Option String
  timestamp : String
  company : Option Company
  customer : Option String
  jobDescription : String
  startTime : Option String
  endTime : Option String
  kilometers : Option String
  materials : List String
  answers : AnswerSet
  photos : PhotoSet
  notes : String
  plumberName : Option String
  deriving DecidableEq, Repr

/-- Truthiness of an optional string field (`if job_data.get('startTime'):`). -/
def otruthy : Option String → Bool
  | some s => s ≠ ""
  | none => false

/-! ### PDF generator (`PDFGenerator.generate`)

The `story` is modelled as a list of abstract blocks; ReportLab styling
(colors, paddings, column widths) is layout detail carried by none of the
claims and is dropped.  A table cell is a string or an embedded (normalized)
image. -/

inductive Cell
  | text (s : String)
  | img (bytes : List Nat)
  deriving DecidableEq, Repr

def Cell.isImg : Cell → Bool
  | .img _ => true
  | _ => false

inductive Block
  | para (style : String) (text : String)
  | spacer
  | table (rows : List (List Cell))
  deriving DecidableEq, Repr

def companyName (j : JobData) : String :=
  ((j.company.map (fun c => c.name.getD "VVS Bedrift")).getD "VVS Bedrift")

def companyOrgNr (j : JobData) : String :=
  ((j.company.map (fun c => c.orgNr.getD "N/A")).getD "N/A")

/-- Company header, blue header bar, customer box (all unconditional). -/
def headerBlocks (j : JobData) : List Block :=
  [ .para "CompanyName" (companyName j),
    .para "CompanyInfo" ("Org.nr: " ++ companyOrgNr j),
    .spacer,
    .table [[Cell.text ""]],
    .spacer,
    .para "FieldLabel" "KUNDE / ADRESSE",
    .table [[Cell.text (j.customer.getD "N/A")]],
    .spacer ]

/-- The date/time string of the info panel:
`timestamp = job_data.get('timestamp', '')`; when truthy it is parsed with
`datetime.fromisoformat(timestamp.replace('Z', '+00:00'))` — an unparsable
value raises `ValueError` out of `generate` — otherwise `'N/A'`. -/
def dateTimeStrE (timestamp : String) : Except String String :=
  if timestamp ≠ "" then
    match fromisoformat (pyReplaceZ timestamp) with
    | some dt => .ok (strftimeReport dt)
    | none => .error "ValueError"
  else .ok "N/A"

def dateBlocks (dts : String) : List Block :=
  [ .para "FieldLabel" "DATO / TID",
    .para "FieldValue" dts,
    .spacer ]

def descBlocks (j : JobData) : List Block :=
  if j.jobDescription ≠ "" then
    [ .para "BlueItalic" "<i>ARBEID UTFØRT</i>",
      .para "Normal" j.jobDescription,
      .spacer ]
  else []

def timeDistBlocks (j : JobData) : List Block :=
  if otruthy j.startTime || otruthy j.endTime || otruthy j.kilometers then
    let rows :=
      (if otruthy j.startTime then
        [[Cell.text "Starttid:", Cell.text (j.startTime.getD "")]] else []) ++
      (if otruthy j.endTime then
        [[Cell.text "Sluttid:", Cell.text (j.endTime.getD "")]] else []) ++
      (if otruthy j.kilometers then
        [[Cell.text "Kjørt distanse:", Cell.text (j.kilometers.getD "" ++ " km")]] else [])
    if !rows.isEmpty then [.table rows, .spacer] else []
  else []

def materialsBlocks (j : JobData) : List Block :=
  if !j.materials.isEmpty then
    [ .para "BlueItalic" "<i>MATERIALER BRUKT</i>",
      .para "Normal" (String.intercalate ", " j.materials),
      .spacer ]
  else []

/-- The status section: `answers` is fetched but unused; the rendered rows
are the three bare checklist labels, whatever the answers are. -/
def statusBlocks : List Block :=
  [ .para "BlueItalic" "<i>STATUS</i>",
    .table [[Cell.text "KONTROLLPUNKT"]],
    .table [[Cell.text "Arbeid fullført"],
            [Cell.text "Materialer byttet"],
            [Cell.text "Oppfølging påkrevd"]],
    .spacer ]

def photoLabels : List String :=
  ["FØR — Utgangspunkt", "ÅPENT — Under arbeid",
   "DETALJ — Viktig info", "ETTER — Ferdig resultat"]

/-- The fixed-slot selection loop of the photo section: a slot contributes
`(payload string, label)` when the key is present, its value truthy, and the
value is a dict carrying `'data'` or a string; anything else is skipped. -/
def selectPhotos (ps : PhotoSet) : List (String × String) :=
  ((ps.fixedSlots.map Prod.snd).zip photoLabels).filterMap
    (fun sl =>
      match sl.1 with
      | some p =>
        if p.truthy then
          match p with
          | .pdata s => some (s, sl.2)
          | .pstr s => some (s, sl.2)
          | .pother _ => none
        else none
      | none => none)

/-- One photo attempt of the photo grid: data-URI strip, base64 decode,
PIL open/resize/re-encode; any exception is caught and the pair of cells is
`('', '')`; success gives the embedded image and its caption. -/
def photoCellPair (pil : List Nat → Option (List Nat)) (p : String × String) :
    Cell × Cell :=
  match (stripDataUri p.1).bind pyB64Decode with
  | none => (Cell.text "", Cell.text "")
  | some bs =>
    match pil bs with
    | none => (Cell.text "", Cell.text "")
    | some nb => (Cell.img nb, Cell.text ("<font size=8>" ++ p.2 ++ "</font>"))

/-- The two-per-row layout loop: for each pair of selected photos an image
row then a label row; an odd last photo is padded with `''` cells. -/
def photoRows (pil : List Nat → Option (List Nat)) :
    List (String × String) → List (List Cell)
  | [] => []
  | [p] =>
    let cl := photoCellPair pil p
    [[cl.1, Cell.text ""], [cl.2, Cell.text ""]]
  | p :: q :: rest =>
    let cp := photoCellPair pil p
    let cq := photoCellPair pil q
    [cp.1, cq.1] :: [cp.2, cq.2] :: photoRows pil rest

/-- The photo section: emitted only when the `photos` dict is truthy; the
table only when the fixed-slot selection is non-empty.  `extra_` entries are
never consulted here. -/
def photoBlocks (pil : List Nat → Option (List Nat)) (ps : PhotoSet) :
    List Block :=
  if ps.truthy then
    .para "BlueItalic" "<i>FOTODOKUMENTASJON</i>" ::
      (let photos := selectPhotos ps
       if photos.isEmpty then [] else [.table (photoRows pil photos)])
  else []

def notesBlocks (j : JobData) : List Block :=
  if j.notes ≠ "" then
    [ .spacer, .para "SectionHeader" "Merknader", .para "Normal" j.notes ]
  else []

/-- The full story in source order. There is no footer: the story ends with
the notes paragraph when notes are non-empty, otherwise with the photo
section, otherwise with the spacer after the status table. -/
def storyOf (pil : List Nat → Option (List Nat)) (j : JobData) (dts : String) :
    List Block :=
  headerBlocks j ++ dateBlocks dts ++ descBlocks j ++ timeDistBlocks j ++
    materialsBlocks j ++ statusBlocks ++ photoBlocks pil j.photos ++
    notesBlocks j

/-- `PDFGenerator.generate`: builds the story and serializes it; the only
uncaught exception inside it is the `ValueError` of the timestamp parse. -/
def generate (pil : List Nat → Option (List Nat)) (j : JobData) :
    Except String (List Block) :=
  match dateTimeStrE j.timestamp with
  | .error e => .error e
  | .ok dts => .ok (storyOf pil j dts)

/-! ### Email sender (`EmailSender.send`) -/

structure SmtpConfig where
  host : String
  port : Nat
  user : String
  password : String
  deriving DecidableEq, Repr

/-- The transport-level condition of a send attempt: every step succeeds,
or the connection / `starttls`+`login` / `send_message` step raises. -/
inductive TransportWorld
  | ok
  | connectError
  | authError
  | transmitError
  deriving DecidableEq, Repr

/-- `EmailSender.send`.  Returns `(result, connectionAttempted)`:
`False` without a connection when user or password is empty; otherwise the
whole attempt runs inside `try`, every exception is caught and yields
`False`; success yields `True`.  (The Python function returns only the
boolean; the second component records whether `smtplib.SMTP(...)` was
reached, which in the source is exactly the configured case.) -/
def send (config : SmtpConfig) (world : TransportWorld)
    (toEmail subject body : String)
    (attachments : List (String × List Nat)) : Bool × Bool :=
  if config.user = "" || config.password = "" then (false, false)
  else
    match world with
    | .ok => (true, true)
    | _ => (false, true)

/-! ### Attachment assembly and the submit handler
(`PipelineHandler._handle_submit`) -/

/-- The bytes a photo payload contributes as an attachment: after the
dict-with-`'data'` unwrap, `photo_data.startswith(...)`/`split`/`b64decode`
run inside `try`; a non-string payload raises `AttributeError` there and is
skipped, as is any strip/decode failure. -/
def attachBytes : Payload → Option (List Nat)
  | .pstr s => (stripDataUri s).bind pyB64Decode
  | .pdata s => (stripDataUri s).bind pyB64Decode
  | .pother _ => none

/-- The fixed-slot attachment loop: slots in fixed order, present and truthy
values only; `photo_count` increments only on success, and names are
`bilde_{count}_{key}.jpg`. -/
def addFixed : List (String × Option Payload) → Nat →
    List (String × List Nat) × Nat
  | [], n => ([], n)
  | (key, slot) :: rest, n =>
    match slot with
    | some p =>
      if p.truthy then
        match attachBytes p with
        | some bs =>
          let ln := addFixed rest (n + 1)
          (("bilde_" ++ toString n ++ "_" ++ key ++ ".jpg", bs) :: ln.1, ln.2)
        | none => addFixed rest n
      else addFixed rest n
    | none => addFixed rest n

/-- The extra-photo loop: `photos_obj.items()` in encounter order, keys
starting with `extra_` and truthy values only, continuing the counter. -/
def addExtras : List (String × Payload) → Nat →
    List (String × List Nat) × Nat
  | [], n => ([], n)
  | (key, v) :: rest, n =>
    if "extra_".data.isPrefixOf key.data && v.truthy then
      match attachBytes v with
      | some bs =>
        let ln := addExtras rest (n + 1)
        (("bilde_" ++ toString n ++ "_" ++ key ++ ".jpg", bs) :: ln.1, ln.2)
      | none => addExtras rest n
    else addExtras rest n

/-- `attachments = [(pdf_filename, pdf_bytes)]` followed, when the `photos`
dict is truthy, by the fixed-slot photos then the extra photos. -/
def buildAttachments (pdfFilename : String) (pdfBytes : List Nat)
    (ps : PhotoSet) : List (String × List Nat) :=
  if ps.truthy then
    let fixed := addFixed ps.fixedSlots 1
    let extras := addExtras ps.extras fixed.2
    (pdfFilename, pdfBytes) :: (fixed.1 ++ extras.1)
  else [(pdfFilename, pdfBytes)]

/-- Process configuration read by the handler. -/
structure Config where
  outputDir : String
  smtp : SmtpConfig
  officeEmail : String
  deriving DecidableEq, Repr

/-- Externally visible side effects of one submit, in program order. -/
inductive Effect
  | saveFile (path : String) (content : List Nat)
  | sendEmail (toEmail subject body : String)
      (attachments : List (String × List Nat)) (result : Bool)
  deriving DecidableEq, Repr

/-- The JSON response of `/api/submit`: 200 `{'success': True, 'job_id',
'pdf_filename'}` or 500 `{'success': False, 'error'}`. -/
inductive Response
  | ok (jobId pdfFilename : String)
  | err (msg : String)
  deriving DecidableEq, Repr

def emailBody (plumber customer jobId : String) : String :=
  "Jobbrapport fra " ++ plumber ++ "\n\nKunde: " ++ customer ++
    "\nJobb ID: " ++ jobId ++
    "\n\nSe vedlagt PDF for detaljer og separate bilder.\n\n---\nAutomatisk generert av VVS Pipeline\n"

/-- `PipelineHandler._handle_submit` on an already-parsed body: substitute
id `'unknown'` when absent, generate the PDF (an exception gives the 500
response), save it, and — only when an office email is configured — build
the attachments and attempt one send; always answer success afterwards. -/
def handleSubmit (cfg : Config) (world : TransportWorld)
    (pil : List Nat → Option (List Nat)) (render : List Block → List Nat)
    (data : JobData) : Response × List Effect :=
  let jobId := data.id.getD "unknown"
  match generate pil data with
  | .error e => (.err e, [])
  | .ok story =>
    let pdfBytes := render story
    let pdfFilename := "jobbrapport_" ++ jobId ++ ".pdf"
    let pdfPath := cfg.outputDir ++ "/" ++ pdfFilename
    let emailEffects :=
      if cfg.officeEmail ≠ "" then
        let customer := data.customer.getD "Ukjent kunde"
        let plumber := data.plumberName.getD "Ukjent montør"
        let subject := "Jobbrapport - " ++ customer
        let body := emailBody plumber customer jobId
        let attachments := buildAttachments pdfFilename pdfBytes data.photos
        let result := (send cfg.smtp world cfg.officeEmail subject body attachments).1
        [Effect.sendEmail cfg.officeEmail subject body attachments result]
      else []
    (.ok jobId pdfFilename, Effect.saveFile pdfPath pdfBytes :: emailEffects)

/-! ### Concrete instances used by witnesses and counterexamples -/

/-- A PIL model that accepts every byte string (re-encoding it unchanged). -/
def pilId : List Nat → Option (List Nat) := fun bs => some bs

/-- A renderer model producing an empty byte artifact. -/
def renderNil : List Block → List Nat := fun _ => []

def emptyPhotos : PhotoSet := ⟨none, none, none, none, []⟩

def jNoId : JobData :=
  ⟨none, "", none, none, "", none, none, none, [],
   ⟨none, none, none⟩, emptyPhotos, "", none⟩

def jBadTs : JobData := { jNoId with timestamp := "not-a-date" }

def jGood : JobData :=
  { jNoId with
      id := some "J-100",
      timestamp := "2024-03-01T14:30:00Z",
      photos := ⟨some (.pstr "QUJD"), none, none, none, []⟩ }

def jNotes : JobData := { jNoId with notes := "Ekstra merknad" }

def cfgLocal : Config := ⟨"./outputs", ⟨"smtp.gmail.com", 587, "", ""⟩, ""⟩

def cfgOffice : Config :=
  ⟨"./outputs", ⟨"smtp.gmail.com", 587, "user", "pw"⟩, "office@example.com"⟩

/-- A fixed slot contributes an attachment iff its key is present, its value
truthy, and the (unwrapped) payload string base64-decodes. -/
def decodableSlot : String × Option Payload → Bool
  | (_, some p) => p.truthy && (attachBytes p).isSome
  | (_, none) => false

/-- An item of the photos dict contributes an extra attachment iff its key
starts with `extra_`, its value is truthy, and the payload decodes. -/
def decodableExtra (e : String × Payload) : Bool :=
  "extra_".data.isPrefixOf e.1.data && e.2.truthy && (attachBytes e.2).isSome

/-- Whether the full per-photo pipeline of the grid (strip, base64, PIL)
succeeds for a selected photo. -/
def decodesFully (pil : List Nat → Option (List Nat)) (p : String × String) :
    Bool :=
  (((stripDataUri p.1).bind pyB64Decode).bind pil).isSome

/-- Number of embedded images over all rows of a photo table. -/
def imgCellCount (rows : List (List Cell)) : Nat :=
  (rows.map (fun r => r.countP Cell.isImg)).sum

/-- The attachment list carried by a dispatch effect. -/
def Effect.attachmentsOf : Effect → Option (List (String × List Nat))
  | .sendEmail _ _ _ atts _ => some atts
  | _ => none

/-! ### Helper lemmas about `pySplit` -/

theorem pySplit_ne_nil (sep : Char) (l : List Char) : pySplit sep l ≠ [] := by
  cases l with
  | nil => simp [pySplit]
  | cons c cs =>
    simp only [pySplit]
    split <;> simp

theorem pySplit_headD (sep : Char) (l : List Char) :
    (pySplit sep l).headD [] = l.takeWhile (fun c => c ≠ sep) := by
  induction l with
  | nil => rfl
  | cons c cs ih =>
    by_cases h : c = sep
    · simp [pySplit, h]
    · simp only [pySplit, if_neg h, List.headD_cons, List.takeWhile_cons]
      rw [ih]
      simp [h]

theorem getElem?_zero_of_ne_nil (r : List α) (d : α) (h : r ≠ []) :
    r[0]? = some (r.headD d) := by
  cases r with
  | nil => exact absurd rfl h
  | cons x xs => simp

theorem getElem?_one_eq_tail (r : List α) : r.tail[0]? = r[1]? := by
  cases r <;> simp

/-- Relate `split(',')[1]` to "suffix after the first comma, truncated at the
next comma". -/
theorem pySplit_one (l : List Char) :
    (pySplit ',' l)[1]? =
      (afterFirstComma l).map (fun suf => suf.takeWhile (fun c => c ≠ ',')) := by
  induction l with
  | nil => rfl
  | cons c cs ih =>
    by_cases h : c = ','
    · subst h
      have h0 := getElem?_zero_of_ne_nil (pySplit ',' cs) [] (pySplit_ne_nil ',' cs)
      simp [pySplit, afterFirstComma, h0]
      simpa using pySplit_headD ',' cs
    · simp only [pySplit, afterFirstComma, if_neg h, List.getElem?_cons_succ]
      rw [getElem?_one_eq_tail]
      exact ih

/-! ### Claim C6 -/

/-- C6 counterexample: for the data-URI payload
`data:image/png;base64,QUJD,REVG`, whose suffix after the first comma itself
contains a comma, the code's strip (`split(',')[1]`) yields only `QUJD`, the
segment between the first and second commas — not the full suffix
`QUJD,REVG` that the claim (and the spec-modelled strip) prescribes. -/
theorem C6_stripClaimFalse :
    stripDataUri "data:image/png;base64,QUJD,REVG" = some "QUJD".data ∧
    stripDataUriSpec "data:image/png;base64,QUJD,REVG" = some "QUJD,REVG".data ∧
    "QUJD".data ≠ "QUJD,REVG".data := by
  refine ⟨rfl, rfl, by decide⟩

/-- C6 (amended): for a payload with a data-URI prefix, both photo paths
strip everything up to and including the first comma *and truncate at the
next comma*: the decoded bytes are the base64 decoding of the segment
between the first and second commas.  This agrees with the claim exactly
when the suffix after the first comma contains no further comma. -/
theorem C6_stripAmended (s : String) (suf : List Char)
    (hpre : ("data:image".data.isPrefixOf s.data) = true)
    (hsuf : afterFirstComma s.data = some suf) :
    stripDataUri s = some (suf.takeWhile (fun c => c ≠ ',')) ∧
    (',' ∉ suf → stripDataUri s = stripDataUriSpec s) := by
  have h1 : stripDataUri s = some (suf.takeWhile (fun c => c ≠ ',')) := by
    unfold stripDataUri
    rw [if_pos hpre, pySplit_one, hsuf]
    rfl
  refine ⟨h1, fun hc => ?_⟩
  unfold stripDataUriSpec
  rw [if_pos hpre, hsuf, h1]
  have : suf.takeWhile (fun c => c ≠ ',') = suf :=
    List.takeWhile_eq_self_iff.mpr (by
      intro a ha
      simp only [ne_eq, decide_eq_true_eq]
      intro e
      exact hc (e ▸ ha))
  rw [this]

/-- C6 witness: a well-formed single-comma payload, where the code's strip
keeps the whole suffix and agrees with the spec-modelled strip. -/
theorem C6_stripAmended_w :
    stripDataUri "data:image/jpeg;base64,QUJD" = some "QUJD".data ∧
    stripDataUri "data:image/jpeg;base64,QUJD" =
      stripDataUriSpec "data:image/jpeg;base64,QUJD" := by
  have h := C6_stripAmended "data:image/jpeg;base64,QUJD" "QUJD".data
    (by decide) (by decide)
  exact ⟨h.1, h.2 (by decide)⟩

/-! ### Claim C5: attachment count invariant -/

theorem addFixed_length (l : List (String × Option Payload)) (n : Nat) :
    (addFixed l n).1.length = l.countP decodableSlot := by
  induction l generalizing n with
  | nil => rfl
  | cons kv rest ih =>
    obtain ⟨key, slot⟩ := kv
    cases slot with
    | none => simpa [addFixed, List.countP_cons, decodableSlot] using ih n
    | some p =>
      by_cases ht : p.truthy
      · cases hb : attachBytes p with
        | none =>
          simp [addFixed, ht, hb, List.countP_cons, decodableSlot, ih n]
        | some bs =>
          simp [addFixed, ht, hb, List.countP_cons, decodableSlot, ih (n + 1)]
      · simp [addFixed, ht, List.countP_cons, decodableSlot, ih n]

theorem addExtras_length (l : List (String × Payload)) (n : Nat) :
    (addExtras l n).1.length = l.countP decodableExtra := by
  induction l generalizing n with
  | nil => rfl
  | cons kv rest ih =>
    obtain ⟨key, v⟩ := kv
    by_cases hk : ("extra_".data.isPrefixOf key.data && v.truthy) = true
    · cases hb : attachBytes v with
      | none =>
        simp [addExtras, hk, hb, List.countP_cons, decodableExtra, ih n,
          Bool.and_assoc]
      | some bs =>
        simp [addExtras, hk, hb, List.countP_cons, decodableExtra, ih (n + 1),
          Bool.and_assoc]
    · simp [addExtras, hk, List.countP_cons, decodableExtra, ih n,
        Bool.and_assoc]

theorem photoSet_not_truthy {ps : PhotoSet} (h : ps.truthy = false) :
    ps.before = none ∧ ps.during = none ∧ ps.detail = none ∧
      ps.after = none ∧ ps.extras = [] := by
  obtain ⟨b, d, dt, a, ex⟩ := ps
  simp only [PhotoSet.truthy, Bool.or_eq_false_iff, Bool.not_eq_true',
    List.isEmpty_iff, Option.not_isSome_iff_eq_none, ← Option.not_isSome,
    Bool.not_eq_true] at h
  exact ⟨Option.not_isSome_iff_eq_none.mp (by simp [h.1.1.1.1]),
    Option.not_isSome_iff_eq_none.mp (by simp [h.1.1.1.2]),
    Option.not_isSome_iff_eq_none.mp (by simp [h.1.1.2]),
    Option.not_isSome_iff_eq_none.mp (by simp [h.1.2]),
    List.isEmpty_iff.mp (by simpa using h.2)⟩

theorem buildAttachments_head (pdfFilename : String) (pdfBytes : List Nat)
    (ps : PhotoSet) :
    (buildAttachments pdfFilename pdfBytes ps).head? =
      some (pdfFilename, pdfBytes) := by
  unfold buildAttachments
  split <;> rfl

theorem buildAttachments_length (pdfFilename : String) (pdfBytes : List Nat)
    (ps : PhotoSet) :
    (buildAttachments pdfFilename pdfBytes ps).length =
      1 + ps.fixedSlots.countP decodableSlot +
        ps.extras.countP decodableExtra := by
  unfold buildAttachments
  cases h : ps.truthy with
  | true =>
    simp only [if_pos rfl]
    simp [addFixed_length, addExtras_length]
    omega
  | false =>
    obtain ⟨hb, hd, hdt, ha, hex⟩ := photoSet_not_truthy h
    simp [PhotoSet.fixedSlots, hb, hd, hdt, ha, hex, decodableSlot]

/-- C5: with per-photo attachment active (an office recipient configured),
the assembled attachment list has the document as its first entry and its
length is `1 + (decodable fixed-slot photos) + (decodable extra photos)`;
a per-photo decode failure only drops that photo's entry. -/
theorem C5_attachmentCount (pdfFilename : String) (pdfBytes : List Nat)
    (ps : PhotoSet) :
    (buildAttachments pdfFilename pdfBytes ps).length =
      1 + ps.fixedSlots.countP decodableSlot +
        ps.extras.countP decodableExtra ∧
    (buildAttachments pdfFilename pdfBytes ps).head? =
      some (pdfFilename, pdfBytes) :=
  ⟨buildAttachments_length pdfFilename pdfBytes ps,
   buildAttachments_head pdfFilename pdfBytes ps⟩

/-! ### Claim C2: the photo grid -/

theorem isImg_text (s : String) : (Cell.text s).isImg = false := rfl

theorem photoCellPair_fst_isImg (pil : List Nat → Option (List Nat))
    (p : String × String) :
    (photoCellPair pil p).1.isImg = decodesFully pil p := by
  unfold photoCellPair decodesFully
  cases hb : (stripDataUri p.1).bind pyB64Decode with
  | none => rfl
  | some bs => cases hp : pil bs <;> simp [Cell.isImg, hp]

theorem photoCellPair_snd_isImg (pil : List Nat → Option (List Nat))
    (p : String × String) :
    (photoCellPair pil p).2.isImg = false := by
  unfold photoCellPair
  cases hb : (stripDataUri p.1).bind pyB64Decode with
  | none => rfl
  | some bs => cases hp : pil bs <;> simp [Cell.isImg, hp]

theorem photoRows_imgCount (pil : List Nat → Option (List Nat))
    (l : List (String × String)) :
    imgCellCount (photoRows pil l) = l.countP (decodesFully pil) := by
  induction l using photoRows.induct pil with
  | case1 => rfl
  | case2 p =>
    simp [photoRows, imgCellCount, List.countP_cons,
      photoCellPair_fst_isImg, photoCellPair_snd_isImg, isImg_text]
  | case3 p q rest ih =>
    simp only [photoRows, imgCellCount, List.map_cons, List.sum_cons,
      List.countP_cons, List.countP_nil, photoCellPair_fst_isImg,
      photoCellPair_snd_isImg, isImg_text] at ih ⊢
    simp only [Bool.false_eq_true, if_false]
    omega

theorem photoRows_length (pil : List Nat → Option (List Nat))
    (l : List (String × String)) :
    (photoRows pil l).length = 2 * ((l.length + 1) / 2) := by
  induction l using photoRows.induct pil with
  | case1 => rfl
  | case2 p => simp [photoRows]
  | case3 p q rest ih =>
    simp only [photoRows, List.length_cons] at ih ⊢
    omega

theorem selectPhotos_length_le (ps : PhotoSet) : (selectPhotos ps).length ≤ 4 := by
  refine le_trans (List.length_filterMap_le _ _) ?_
  simp [PhotoSet.fixedSlots, photoLabels]

/-- C2 counterexample: with an empty PhotoSet the photo block is empty —
zero cells, not "exactly four fixed-slot cells" with labeled placeholders —
and a present but undecodable payload renders an unlabeled blank cell pair,
not a captioned placeholder. -/
theorem C2_photoGridClaimFalse :
    photoBlocks pilId emptyPhotos = [] ∧
    photoRows pilId [("AAA", "FØR — Utgangspunkt")] =
      [[Cell.text "", Cell.text ""], [Cell.text "", Cell.text ""]] :=
  ⟨rfl, rfl⟩

/-- C2 (amended): the photo grid contains one image cell per *selected*
fixed-slot payload (present, truthy, string-or-data-wrapper) whose full
decode pipeline succeeds; cells come two per row (an image row and a label
row, the odd tail padded with blank cells), so the table has
`2 * ⌈selected/2⌉` rows; at most the four fixed slots are rendered (absent
slots are skipped, not shown as placeholders) and `extra_` photos never
appear in the document. -/
theorem C2_photoGridAmended (pil : List Nat → Option (List Nat))
    (ps : PhotoSet) (es : List (String × Payload)) :
    imgCellCount (photoRows pil (selectPhotos ps)) =
      (selectPhotos ps).countP (decodesFully pil) ∧
    (photoRows pil (selectPhotos ps)).length =
      2 * (((selectPhotos ps).length + 1) / 2) ∧
    (selectPhotos ps).length ≤ 4 ∧
    selectPhotos { ps with extras := es } = selectPhotos ps :=
  ⟨photoRows_imgCount pil (selectPhotos ps),
   photoRows_length pil (selectPhotos ps),
   selectPhotos_length_le ps, rfl⟩

/-! ### Claim C1: status block vs. AnswerSet -/

/-- C1: the generator fetches `answers` but never uses it — the three status
rows are rendered as bare fixed labels, so two job records that differ only
in their AnswerSet produce *identical* documents.  No ternary
affirmed/denied/unknown rendering exists; in particular a denied answer and
an unset answer are rendered the same (as nothing). -/
theorem C1_statusIgnoresAnswers (pil : List Nat → Option (List Nat))
    (j : JobData) (a1 a2 : AnswerSet) :
    generate pil { j with answers := a1 } =
      generate pil { j with answers := a2 } := rfl

/-! ### Claim C3: timestamp handling -/

theorem mem_storyOf_dateValue (pil : List Nat → Option (List Nat))
    (j : JobData) (dts : String) :
    Block.para "FieldValue" dts ∈ storyOf pil j dts := by
  unfold storyOf dateBlocks
  simp [List.mem_append]

/-- C3 counterexample: an unparsable non-empty timestamp makes
`datetime.fromisoformat` raise `ValueError`, which escapes `generate` —
document assembly *does* fail, contradicting the claim; and an absent
timestamp is rendered as the fixed placeholder `N/A`, not as the wall-clock
time at generation. -/
theorem C3_timestampClaimFalse :
    generate pilId jBadTs = Except.error "ValueError" ∧
    dateTimeStrE "" = Except.ok "N/A" := ⟨rfl, rfl⟩

/-- C3 (amended): an absent (empty) timestamp is a silent fallback to the
fixed string `N/A` (not the wall-clock time); a non-empty timestamp that
does not parse — after every `Z` is replaced by `+00:00`, which covers the
trailing-`Z` case — raises out of document assembly; a parsable timestamp is
rendered via `strftime('%d.%m.%Y kl. %H:%M')` into the info panel. -/
theorem C3_timestampAmended (pil : List Nat → Option (List Nat)) (j : JobData) :
    ((generate pil j).isOk = true ↔
      j.timestamp = "" ∨ (fromisoformat (pyReplaceZ j.timestamp)).isSome = true) ∧
    (j.timestamp = "" → generate pil j = .ok (storyOf pil j "N/A")) ∧
    (∀ dt, j.timestamp ≠ "" → fromisoformat (pyReplaceZ j.timestamp) = some dt →
      generate pil j = .ok (storyOf pil j (strftimeReport dt))) ∧
    (∀ dts, Block.para "FieldValue" dts ∈ storyOf pil j dts) := by
  refine ⟨?_, ?_, ?_, mem_storyOf_dateValue pil j⟩
  · unfold generate dateTimeStrE
    by_cases h : j.timestamp = ""
    · simp [h, Except.isOk, Except.toBool]
    · cases hf : fromisoformat (pyReplaceZ j.timestamp) <;>
        simp [h, hf, Except.isOk, Except.toBool]
  · intro h
    unfold generate dateTimeStrE
    simp [h]
  · intro dt h hf
    unfold generate dateTimeStrE
    simp [h, hf]

/-- C3 witness: the spec's scenario timestamp `2024-03-01T14:30:00Z` parses
(trailing `Z` as `+00:00`) and is rendered as `01.03.2024 kl. 14:30`. -/
theorem C3_timestampAmended_w :
    generate pilId jGood = .ok (storyOf pilId jGood "01.03.2024 kl. 14:30") ∧
    Block.para "FieldValue" "01.03.2024 kl. 14:30" ∈
      storyOf pilId jGood "01.03.2024 kl. 14:30" := by
  have h := C3_timestampAmended pilId jGood
  exact ⟨h.2.2.1 ⟨2024, 3, 1, 14, 30, 0⟩ (by decide) rfl,
    h.2.2.2 "01.03.2024 kl. 14:30"⟩

/-! ### Claim C4: the dispatcher's outcome -/

/-- C4 counterexample: not-configured (empty user) and a transport failure
under full configuration return the *same* value `False` — the caller cannot
tell skipped-not-configured apart from failed, so `send` does not return
three mutually distinguishable outcomes. -/
theorem C4_sendClaimFalse :
    (send ⟨"smtp.gmail.com", 587, "", ""⟩ .ok "to" "s" "b" []).1 =
      (send ⟨"smtp.gmail.com", 587, "user", "pw"⟩ .connectError "to" "s" "b" []).1 :=
  rfl

/-- C4 (amended): `send` never propagates an exception but returns only a
boolean: `True` exactly when both credentials are configured and every
transport step succeeds; `False` both when not configured — in which case no
connection is attempted — and on any transport failure, the two being
indistinguishable to the caller. -/
theorem C4_sendAmended (config : SmtpConfig) (world : TransportWorld)
    (toEmail subject body : String) (attachments : List (String × List Nat)) :
    ((send config world toEmail subject body attachments).1 = true ↔
      config.user ≠ "" ∧ config.password ≠ "" ∧ world = .ok) ∧
    (config.user = "" ∨ config.password = "" →
      send config world toEmail subject body attachments = (false, false)) := by
  constructor
  · unfold send
    by_cases hu : config.user = ""
    · simp [hu]
    · by_cases hp : config.password = ""
      · simp [hu, hp]
      · cases world <;> simp [hu, hp]
  · intro h
    unfold send
    rcases h with h | h <;> simp [h]

/-- C4 witness: with an empty user the result is `False` and no connection
is attempted. -/
theorem C4_sendAmended_w :
    send ⟨"smtp.gmail.com", 587, "", "pw"⟩ .ok "to" "s" "b" [] = (false, false) :=
  (C4_sendAmended ⟨"smtp.gmail.com", 587, "", "pw"⟩ .ok "to" "s" "b" []).2
    (Or.inl rfl)

/-! ### Claim C7: missing identifier -/

/-- C7 counterexample: a submission with no `id` is *not* aborted — the
handler substitutes `unknown`, produces and saves the document under
`jobbrapport_unknown.pdf` and answers success. -/
theorem C7_missingIdClaimFalse :
    handleSubmit cfgLocal .ok pilId renderNil jNoId =
      (.ok "unknown" "jobbrapport_unknown.pdf",
       [Effect.saveFile "./outputs/jobbrapport_unknown.pdf" []]) := rfl

/-- C7 (amended): a record missing the identifier proceeds under the
substitute identifier `unknown` and is reported as success with filename
`jobbrapport_unknown.pdf`; only an exception during document generation
(e.g. an unparsable timestamp) aborts the request with a failure response
carrying the error description. -/
theorem C7_missingIdAmended (cfg : Config) (world : TransportWorld)
    (pil : List Nat → Option (List Nat)) (render : List Block → List Nat)
    (j : JobData) :
    (∀ story, generate pil j = .ok story → j.id = none →
      (handleSubmit cfg world pil render j).1 =
        .ok "unknown" "jobbrapport_unknown.pdf") ∧
    (∀ e, generate pil j = .error e →
      handleSubmit cfg world pil render j = (.err e, [])) := by
  constructor
  · intro story hg hid
    simp only [handleSubmit, hg, hid, Option.getD_none]
    rfl
  · intro e hg
    simp only [handleSubmit, hg]

/-- C7 witness: both branches of the amended claim at concrete inputs. -/
theorem C7_missingIdAmended_w :
    (handleSubmit cfgLocal .ok pilId renderNil jNoId).1 =
      .ok "unknown" "jobbrapport_unknown.pdf" ∧
    handleSubmit cfgLocal .ok pilId renderNil jBadTs =
      (.err "ValueError", []) := by
  constructor
  · exact (C7_missingIdAmended cfgLocal .ok pilId renderNil jNoId).1 _ rfl rfl
  · exact (C7_missingIdAmended cfgLocal .ok pilId renderNil jBadTs).2
      "ValueError" rfl

/-! ### Claim C8: no footer block -/

theorem getLast?_append_some {b : List α} (a : List α) {x : α}
    (h : b.getLast? = some x) : (a ++ b).getLast? = some x := by
  have hb : b ≠ [] := by
    intro e
    rw [e] at h
    simp at h
  rw [List.getLast?_append_of_ne_nil a hb]
  exact h

/-- C8 counterexample: the rendered story has no trailing footer block of
fixed legal/attribution text — for a minimal record it ends with the spacer
after the status table, and for a record with notes it ends with the
(record-dependent) notes paragraph. -/
theorem C8_footerClaimFalse :
    (generate pilId jNoId).map List.getLast? = .ok (some Block.spacer) ∧
    (generate pilId jNotes).map List.getLast? =
      .ok (some (Block.para "Normal" "Ekstra merknad")) := ⟨rfl, rfl⟩

/-- C8 (amended): no footer block exists; the document ends with the notes
paragraph when notes are non-empty, and otherwise (with no photo section
shown) with the spacer that follows the status table. -/
theorem C8_footerAmended (pil : List Nat → Option (List Nat))
    (j : JobData) (dts : String) :
    (j.notes ≠ "" →
      (storyOf pil j dts).getLast? = some (Block.para "Normal" j.notes)) ∧
    (j.notes = "" → j.photos.truthy = false →
      (storyOf pil j dts).getLast? = some Block.spacer) := by
  constructor
  · intro h
    unfold storyOf
    exact getLast?_append_some _ (by simp [notesBlocks, h])
  · intro hn hp
    unfold storyOf
    rw [show notesBlocks j = [] by simp [notesBlocks, hn],
        show photoBlocks pil j.photos = [] by simp [photoBlocks, hp],
        List.append_nil, List.append_nil]
    exact getLast?_append_some _ (by rfl)

/-- C8 witness: the amended claim at a record with non-empty notes. -/
theorem C8_footerAmended_w :
    (storyOf pilId jNotes "N/A").getLast? =
      some (Block.para "Normal" "Ekstra merknad") :=
  (C8_footerAmended pilId jNotes "N/A").1 (by decide)

/-! ### Claims C9 and C10: the handler's effects -/

/-- C9: with an empty configured office email, the handler performs exactly
one effect — saving the document — never assembles attachments or invokes
`send`, and still reports success with the document filename. -/
theorem C9_noOfficeEmail (cfg : Config) (world : TransportWorld)
    (pil : List Nat → Option (List Nat)) (render : List Block → List Nat)
    (j : JobData) (dts : String)
    (hoff : cfg.officeEmail = "")
    (hts : dateTimeStrE j.timestamp = .ok dts) :
    handleSubmit cfg world pil render j =
      (.ok (j.id.getD "unknown")
        ("jobbrapport_" ++ j.id.getD "unknown" ++ ".pdf"),
       [Effect.saveFile
          (cfg.outputDir ++ "/" ++ ("jobbrapport_" ++ j.id.getD "unknown" ++ ".pdf"))
          (render (storyOf pil j dts))]) := by
  unfold handleSubmit generate
  rw [hts]
  simp [hoff]

/-- C9 witness: a concrete submission with no office email configured. -/
theorem C9_noOfficeEmail_w :
    handleSubmit cfgLocal .ok pilId renderNil jGood =
      (.ok "J-100" "jobbrapport_J-100.pdf",
       [Effect.saveFile "./outputs/jobbrapport_J-100.pdf" []]) :=
  C9_noOfficeEmail cfgLocal .ok pilId renderNil jGood "01.03.2024 kl. 14:30"
    rfl rfl

/-- C10: whenever generation succeeds, the first effect — before any
dispatch — saves the exact rendered bytes under
`outputDir/jobbrapport_{id}.pdf`; the success response reports that same
filename, and every dispatched attachment set has that file as its first
attachment. -/
theorem C10_saveBeforeDispatch (cfg : Config) (world : TransportWorld)
    (pil : List Nat → Option (List Nat)) (render : List Block → List Nat)
    (j : JobData) (dts : String)
    (hts : dateTimeStrE j.timestamp = .ok dts) :
    (handleSubmit cfg world pil render j).2.head? =
      some (Effect.saveFile
        (cfg.outputDir ++ "/" ++ ("jobbrapport_" ++ j.id.getD "unknown" ++ ".pdf"))
        (render (storyOf pil j dts))) ∧
    (handleSubmit cfg world pil render j).1 =
      .ok (j.id.getD "unknown") ("jobbrapport_" ++ j.id.getD "unknown" ++ ".pdf") ∧
    (((handleSubmit cfg world pil render j).2.filterMap Effect.attachmentsOf).all
      (fun atts => atts.head? ==
        some ("jobbrapport_" ++ j.id.getD "unknown" ++ ".pdf",
          render (storyOf pil j dts)))) = true := by
  unfold handleSubmit generate
  rw [hts]
  by_cases hoff : cfg.officeEmail = ""
  · simp [hoff, Effect.attachmentsOf]
  · simp [hoff, Effect.attachmentsOf, buildAttachments_head]

/-- C10 witness: a concrete submission with an office email configured. -/
theorem C10_saveBeforeDispatch_w :
    (handleSubmit cfgOffice .ok pilId renderNil jGood).2.head? =
      some (Effect.saveFile "./outputs/jobbrapport_J-100.pdf" []) ∧
    (handleSubmit cfgOffice .ok pilId renderNil jGood).1 =
      .ok "J-100" "jobbrapport_J-100.pdf" ∧
    (((handleSubmit cfgOffice .ok pilId renderNil jGood).2.filterMap
        Effect.attachmentsOf).all
      (fun atts => atts.head? == some ("jobbrapport_J-100.pdf", ([] : List Nat)))) =
      true :=
  C10_saveBeforeDispatch cfgOffice .ok pilId renderNil jGood
    "01.03.2024 kl. 14:30" rfl

end Pipeline
